import Mathlib

/-!
Verification of ai_mail_sorter (src/app.py) against its specification.

The development shallowly embeds the program's data model and operations:

* Python strings are modelled as `List Char` (`Str`); `bytes` as `List Nat`.
* The IMAP session is modelled as a `Session` record of response functions, and
  every store command issued by the program is recorded in an explicit trace
  (`MailCmd`); `print` output is recorded as a list of log lines.
* Python exceptions are modelled with `Except Str`: a raised exception is an
  `Except.error`, and an uncaught exception propagating out of a function shows
  up as the `Except.error` result of the caller.
* The zero-shot classification pipeline is out of scope per the spec ("treated
  as a black box") and is passed in as an oracle function returning the
  top-ranked label (or an error, modelling a raising oracle call).
* A parsed email message (`email.message_from_bytes`) is a `Msg`: the optional
  Subject header plus the MIME tree (`Part`).  A leaf part's `payload` field
  holds the transfer-decoded bytes that `get_payload(decode=True)` returns; on
  a multipart container `get_payload(decode=True)` returns Python `None`,
  which is modelled by `Part.get_payload_decoded` returning `Option.none`.
-/

namespace AiMailSorter

/-- Python strings are modelled as lists of characters. -/
abbrev Str := List Char

/-- Python byte strings are modelled as lists of byte values. -/
abbrev Bytes := List Nat

deriving instance DecidableEq for Except

/-- Python's substring test `nee in hay`. -/
def pyContains (hay nee : Str) : Bool :=
  (List.range (hay.length + 1)).any fun i => nee.isPrefixOf (hay.drop i)

/-- Python's `s.lower()`. -/
def pyLower (s : Str) : Str := s.map Char.toLower

/-- Python's `str(x)` applied to an optional string: `str(None)` is `"None"`.
Used for `str(part.get("Content-Disposition"))` (app.py line 46) and for the
subject interpolated into the dry-run print (app.py line 158). -/
def pyStr : Option Str → Str
  | Option.none => "None".toList
  | some s => s

/-- A Python value that is either `None` or a string: the type of
`parsed_email["subject"]` and of the `content` variable in `main`
(app.py lines 159-163). -/
inductive PyVal where
  | none
  | str (s : Str)
deriving DecidableEq

/-- One node of a parsed MIME message, as produced by
`email.message_from_bytes`: either a leaf part carrying its (transfer-decoded)
byte payload, or a multipart container holding sub-parts.  Both carry the
declared content type and the optional Content-Disposition header. -/
inductive Part where
  | leaf (content_type : Str) (content_disposition : Option Str) (payload : Bytes)
  | multi (content_type : Str) (content_disposition : Option Str) (subparts : List Part)

/-- `part.is_multipart()` (app.py line 59). -/
def Part.is_multipart : Part → Bool
  | Part.leaf _ _ _ => false
  | Part.multi _ _ _ => true

/-- `part.get_content_type()` (app.py line 45). -/
def Part.get_content_type : Part → Str
  | Part.leaf ct _ _ => ct
  | Part.multi ct _ _ => ct

/-- `part.get("Content-Disposition")` (app.py line 46). -/
def Part.get_content_disposition : Part → Option Str
  | Part.leaf _ cd _ => cd
  | Part.multi _ cd _ => cd

/-- `part.get_payload(decode=True)` (app.py lines 54/56 and 163): the
transfer-decoded bytes of a leaf part; Python `None` on a multipart. -/
def Part.get_payload_decoded : Part → Option Bytes
  | Part.leaf _ _ pl => some pl
  | Part.multi _ _ _ => Option.none

/-- Fuel-indexed model of `bytes.decode("utf-8", errors="ignore")`:
ASCII bytes decode to themselves, well-formed multi-byte UTF-8 sequences
decode to the encoded code point, and invalid bytes are skipped.  The fuel is
an upper bound on the number of steps; `utf8DecodeIgnore` supplies the list
length, which always suffices since each step consumes at least one byte. -/
def utf8DecodeIgnoreAux : Nat → Bytes → Str
  | 0, _ => []
  | _, [] => []
  | fuel + 1, b :: rest =>
    if b < 128 then Char.ofNat b :: utf8DecodeIgnoreAux fuel rest
    else if 194 ≤ b && b ≤ 223 then
      match rest with
      | c1 :: rest2 =>
        if 128 ≤ c1 && c1 ≤ 191 then
          Char.ofNat ((b - 192) * 64 + (c1 - 128)) :: utf8DecodeIgnoreAux fuel rest2
        else utf8DecodeIgnoreAux fuel rest
      | [] => []
    else if 224 ≤ b && b ≤ 239 then
      match rest with
      | c1 :: c2 :: rest3 =>
        if (128 ≤ c1 && c1 ≤ 191) && (128 ≤ c2 && c2 ≤ 191) then
          Char.ofNat ((b - 224) * 4096 + (c1 - 128) * 64 + (c2 - 128)) ::
            utf8DecodeIgnoreAux fuel rest3
        else utf8DecodeIgnoreAux fuel rest
      | _ => utf8DecodeIgnoreAux fuel rest
    else if 240 ≤ b && b ≤ 244 then
      match rest with
      | c1 :: c2 :: c3 :: rest4 =>
        if ((128 ≤ c1 && c1 ≤ 191) && (128 ≤ c2 && c2 ≤ 191)) && (128 ≤ c3 && c3 ≤ 191) then
          Char.ofNat ((b - 240) * 262144 + (c1 - 128) * 4096 + (c2 - 128) * 64 + (c3 - 128)) ::
            utf8DecodeIgnoreAux fuel rest4
        else utf8DecodeIgnoreAux fuel rest
      | _ => utf8DecodeIgnoreAux fuel rest
    else utf8DecodeIgnoreAux fuel rest

/-- `bytes.decode("utf-8", errors="ignore")`: total, never raises. -/
def utf8DecodeIgnore (bs : Bytes) : Str :=
  utf8DecodeIgnoreAux bs.length bs

mutual
/-- `extract_text_from_part` (app.py lines 44-65), split by constructor so the
recursion is structural.  Branch order follows the source: attachment check
first, then the `text/plain` / `text/html` leaf decode, then the multipart
recursion, else the empty string.  On the (parser-unreachable) combination of
a multipart container declaring a text content type, the source would call
`.decode` on the `None` returned by `get_payload(decode=True)` and raise
`AttributeError`; that is the only `Except.error` case. -/
def extract_text_from_part : Part → Except Str Str
  | Part.leaf ct cd pl =>
    if pyContains (pyStr cd) "attachment".toList then Except.ok []
    else if ct = "text/plain".toList then Except.ok (utf8DecodeIgnore pl)
    else if ct = "text/html".toList then Except.ok (utf8DecodeIgnore pl)
    else Except.ok []
  | Part.multi ct cd ps =>
    if pyContains (pyStr cd) "attachment".toList then Except.ok []
    else if ct = "text/plain".toList then Except.error "AttributeError".toList
    else if ct = "text/html".toList then Except.error "AttributeError".toList
    else extractSubparts ps

/-- The `for subpart in part.get_payload(): text_content += ...` loop of
app.py lines 60-63, accumulating left to right. -/
def extractSubparts : List Part → Except Str Str
  | [] => Except.ok []
  | p :: ps => do
    let t ← extract_text_from_part p
    let rest ← extractSubparts ps
    Except.ok (t ++ rest)
end

mutual
/-- Wellformedness invariant of parts produced by `email.message_from_bytes`:
a container is multipart exactly when its declared content type is a
`multipart/*` type, so a multipart node never declares `text/plain` or
`text/html`.  (Weakened to just the consequence the proofs need.) -/
def Part.wf : Part → Bool
  | Part.leaf _ _ _ => true
  | Part.multi ct _ ps =>
    (!(ct = "text/plain".toList || ct = "text/html".toList)) && Part.wfList ps

/-- `Part.wf` on every element of a list of sub-parts. -/
def Part.wfList : List Part → Bool
  | [] => true
  | p :: ps => Part.wf p && Part.wfList ps
end

/-- The label list presented to the classifier (app.py line 34):
each label starting with the prefix has it stripped, others pass through. -/
def strip_labels (labels : List Str) (pfx : Str) : List Str :=
  labels.map fun label => if pfx.isPrefixOf label then label.drop pfx.length else label

/-- `classify_email` (app.py lines 15-41), with the zero-shot pipeline
abstracted as `oracle` returning the top-ranked label (`output["labels"][0]`);
an `Except.error` oracle result models a raising classifier call.  A `None` or
empty prefix becomes `""` (`if not prefix: prefix = ""`). -/
def classify_email (oracle : PyVal → List Str → Except Str Str) (email_content : PyVal)
    (labels : List Str) (pfx : Option Str) : Except Str Str :=
  let p : Str := match pfx with
    | Option.none => []
    | some q => q
  let modified_labels := strip_labels labels p
  match oracle email_content modified_labels with
  | Except.error e => Except.error e
  | Except.ok label =>
    if label = "other".toList then Except.ok "INBOX".toList
    else if p ++ label ∈ labels then Except.ok (p ++ label)
    else Except.ok label

/-- A store command issued on the IMAP session. -/
inductive MailCmd where
  | select (mbox : Str)
  | copy (uid dest : Str)
  | store (uid flags dat : Str)
  | expunge
deriving DecidableEq

/-- The observable effect of a run or of a single operation: the store
commands issued, the lines printed, and the Python result (`Except.error`
models an uncaught exception). -/
structure Effect where
  cmds : List MailCmd
  logs : List Str
  result : Except Str Unit
deriving DecidableEq

/-- Destination quoting of app.py lines 76-77: a destination containing a
space is wrapped in double quotes. -/
def quote_dest (destination_folder : Str) : Str :=
  if ' ' ∈ destination_folder then ('"' :: destination_folder) ++ ['"']
  else destination_folder

/-- The message of the exception raised at app.py line 82. -/
def copy_failed_msg (uid destination_folder : Str) : Str :=
  "Failed to copy email UID ".toList ++ uid ++ " to ".toList ++ destination_folder

/-- The dry-run print of app.py line 70. -/
def dry_run_line (uid source_folder destination_folder : Str) : Str :=
  "[DRY RUN] Would move email with UID ".toList ++ uid ++ " from ".toList ++
    source_folder ++ " to ".toList ++ destination_folder

/-- `move_email` (app.py lines 68-88).  `copy_result uid dest` is the status
string the server returns for `mail.uid("COPY", uid, dest)`.  In dry-run mode
nothing is issued and only the decision is printed.  Otherwise the source
folder is selected, the copy is issued, and a non-`"OK"` status raises before
any `STORE`/`EXPUNGE` is issued; the `STORE` and `EXPUNGE` results are not
checked by the source. -/
def move_email (copy_result : Str → Str → Str) (uid source_folder destination_folder : Str)
    (dry_run : Bool) : Effect :=
  if dry_run then
    { cmds := [], logs := [dry_run_line uid source_folder destination_folder],
      result := Except.ok () }
  else
    let dest := quote_dest destination_folder
    if copy_result uid dest ≠ "OK".toList then
      { cmds := [MailCmd.select source_folder, MailCmd.copy uid dest], logs := [],
        result := Except.error (copy_failed_msg uid dest) }
    else
      { cmds := [MailCmd.select source_folder, MailCmd.copy uid dest,
                 MailCmd.store uid "+FLAGS".toList "\\Deleted".toList, MailCmd.expunge],
        logs := [], result := Except.ok () }

/-- `parse_mailbox_name` (app.py lines 91-103): the positions of the double
quotes are collected; with fewer than two quotes the result is `None`,
otherwise the slice between the last two quotes. -/
def parse_mailbox_name (mailbox_info : Str) : Option Str :=
  let quote_indices := (mailbox_info.enum.filter fun pc => pc.2 = '"').map Prod.fst
  if quote_indices.length < 2 then Option.none
  else
    let start_index := quote_indices.getD (quote_indices.length - 2) 0 + 1
    let end_index := quote_indices.getD (quote_indices.length - 1) 0
    some ((mailbox_info.drop start_index).take (end_index - start_index))

/-- `get_mailboxes` (app.py lines 106-134) applied to the decoded raw listing
entries.  An entry whose parse is `None` or `""` is skipped (`if not
mailbox_name: continue`), as is one whose lowercased name contains a reserved
word or fails the prefix filter; an empty final list raises. -/
def get_mailboxes (mailbox_list : List Str) (pfx : Str) : Except Str (List Str) :=
  let mailboxes := mailbox_list.filterMap fun mailbox =>
    match parse_mailbox_name mailbox with
    | Option.none => Option.none
    | some mailbox_name =>
      if mailbox_name = [] then Option.none
      else
        let m := pyLower mailbox_name
        if pyContains m "archive".toList || pyContains m "sent".toList ||
            pyContains m "drafts".toList || pyContains m "trash".toList ||
            pyContains m "bin".toList || pyContains m "deleted".toList ||
            pyContains m "flagged".toList then Option.none
        else if pfx ≠ [] && !((pyLower pfx).isPrefixOf (pyLower mailbox_name)) then
          Option.none
        else some mailbox_name
  if mailboxes.length = 0 then Except.error "No mailboxes found!".toList
  else Except.ok mailboxes

/-- A parsed email message: the optional Subject header
(`parsed_email["subject"]` is `None` when absent) and the MIME tree. -/
structure Msg where
  subject : Option Str
  body : Part

/-- The content computation of app.py lines 159-163: `content` starts as the
subject (possibly `None`); for a multipart message it is replaced by the
recursive extraction; if the result equals the empty string the top-level
payload is decoded directly (`None.decode` raising `AttributeError` when the
message is multipart). -/
def compute_content (msg : Msg) : Except Str PyVal :=
  let content : PyVal := match msg.subject with
    | Option.none => PyVal.none
    | some s => PyVal.str s
  match (if msg.body.is_multipart then (extract_text_from_part msg.body).map PyVal.str
         else Except.ok content) with
  | Except.error e => Except.error e
  | Except.ok content =>
    if content = PyVal.str [] then
      match msg.body.get_payload_decoded with
      | some bs => Except.ok (PyVal.str (utf8DecodeIgnore bs))
      | Option.none => Except.error "AttributeError".toList
    else Except.ok content

/-- The authenticated IMAP session handle, modelled by what each command
returns: the decoded raw `LIST` entries, the status and UID list of the
`SEARCH`, the per-UID result of fetching-and-parsing a message (an
`Except.error` models a raising fetch or an unusable response), the status
returned for each `COPY`, and the classification oracle (process-wide, lazily
initialized state per the spec, read-only here). -/
structure Session where
  mailbox_list : List Str
  search_status : Str
  search_uids : List Str
  fetch : Str → Except Str Msg
  copy_result : Str → Str → Str
  oracle : PyVal → List Str → Except Str Str

/-- The `print(f"Processing message {uid}")` line (app.py line 153). -/
def processing_line (uid : Str) : Str := "Processing message ".toList ++ uid

/-- The dry-run `print(f"Subject: ...")` line (app.py line 158). -/
def subject_line (subject : Option Str) : Str := "Subject: ".toList ++ pyStr subject

/-- The `print(f"Moving message to {target_folder}")` line (app.py line 167). -/
def moving_line (target_folder : Str) : Str := "Moving message to ".toList ++ target_folder

/-- One iteration of the `for uid in uids` loop of `main`
(app.py lines 152-168): fetch and parse, optionally print the subject,
compute the content, classify, and either skip (`INBOX`) or move.  No step is
wrapped in a `try`: any error is returned as the `Except.error` result. -/
def process_one (sess : Session) (labels : List Str) (pfx : Str) (dry_run : Bool)
    (uid : Str) : Effect :=
  let plog := processing_line uid
  match sess.fetch uid with
  | Except.error e => { cmds := [], logs := [plog], result := Except.error e }
  | Except.ok msg =>
    let dlogs := if dry_run then [subject_line msg.subject] else []
    match compute_content msg with
    | Except.error e => { cmds := [], logs := plog :: dlogs, result := Except.error e }
    | Except.ok content =>
      match classify_email sess.oracle content labels (some pfx) with
      | Except.error e => { cmds := [], logs := plog :: dlogs, result := Except.error e }
      | Except.ok target_folder =>
        if target_folder = "INBOX".toList then
          { cmds := [], logs := plog :: dlogs, result := Except.ok () }
        else
          let eff := move_email sess.copy_result uid "INBOX".toList target_folder dry_run
          { cmds := eff.cmds,
            logs := (plog :: dlogs) ++ [moving_line target_folder] ++ eff.logs,
            result := eff.result }

/-- The whole `for uid in uids` loop: iterations run in order and an uncaught
exception in one iteration propagates, abandoning the remaining UIDs. -/
def process_uids (sess : Session) (labels : List Str) (pfx : Str) (dry_run : Bool) :
    List Str → Effect
  | [] => { cmds := [], logs := [], result := Except.ok () }
  | uid :: rest =>
    let eff := process_one sess labels pfx dry_run uid
    match eff.result with
    | Except.error e => { cmds := eff.cmds, logs := eff.logs, result := Except.error e }
    | Except.ok _ =>
      let r := process_uids sess labels pfx dry_run rest
      { cmds := eff.cmds ++ r.cmds, logs := eff.logs ++ r.logs, result := r.result }

/-- `main` (app.py lines 137-170) after login: discover mailboxes (a failure
aborts), append the `"other"` fallback label, select the inbox, run the
search (a non-`"OK"` status prints `No emails found!` and returns normally),
then process every UID. -/
def main (sess : Session) (pfx : Str) (dry_run : Bool) : Effect :=
  match get_mailboxes sess.mailbox_list pfx with
  | Except.error e => { cmds := [], logs := [], result := Except.error e }
  | Except.ok mbs =>
    let labels := mbs ++ ["other".toList]
    if sess.search_status ≠ "OK".toList then
      { cmds := [MailCmd.select "inbox".toList], logs := ["No emails found!".toList],
        result := Except.ok () }
    else
      let r := process_uids sess labels pfx dry_run sess.search_uids
      { cmds := MailCmd.select "inbox".toList :: r.cmds, logs := r.logs, result := r.result }

/-- Modelled from the spec: §4.2's claimed content order for the Driver —
"first the full depth-first recursive extraction of text parts; if that
yields an empty string, the message subject line; if still empty, the
top-level payload decoded directly".  Written from the spec's words, to be
compared with `compute_content`, which is translated from the source. -/
def spec_content_order (msg : Msg) : Except Str PyVal := do
  let t ← extract_text_from_part msg.body
  if t ≠ [] then Except.ok (PyVal.str t)
  else
    match msg.subject with
    | some s =>
      if s ≠ [] then Except.ok (PyVal.str s)
      else
        match msg.body.get_payload_decoded with
        | some bs => Except.ok (PyVal.str (utf8DecodeIgnore bs))
        | Option.none => Except.error "AttributeError".toList
    | Option.none =>
      match msg.body.get_payload_decoded with
      | some bs => Except.ok (PyVal.str (utf8DecodeIgnore bs))
      | Option.none => Except.error "AttributeError".toList

/-- Modelled from the spec: §4.1 step 2's claimed parse of a raw listing
entry — "extracting the last quoted or unquoted token per the listing
syntax".  The entry is split on spaces, the last token is taken, and a
surrounding pair of double quotes, when present, is removed.  Written from
the spec's words, to be compared with `parse_mailbox_name`. -/
def spec_last_token (entry : Str) : Option Str :=
  let tokens := (List.splitOn ' ' entry).filter fun t => t ≠ []
  match tokens.getLast? with
  | Option.none => Option.none
  | some t =>
    if 2 ≤ t.length ∧ t.head? = some '"' ∧ t.getLast? = some '"' then
      some (t.drop 1).dropLast
    else some t

/-- C1 counterexample session: the fetch of every message raises, two UIDs
are pending and discovery and search succeed. -/
def sessC1 : Session :=
  Session.mk ["() \".\" \"work\"".toList] "OK".toList ["1".toList, "2".toList]
    (fun _ => Except.error "fetch failed".toList)
    (fun _ _ => "OK".toList)
    (fun _ _ => Except.ok "other".toList)

/-- C3 counterexample message: a single-part text/plain message with subject
Hello and body World. -/
def msgC3 : Msg :=
  Msg.mk (some "Hello".toList)
    (Part.leaf "text/plain".toList Option.none [87, 111, 114, 108, 100])

theorem append_drop_of_isPrefixOf {p s : Str} (h : p.isPrefixOf s = true) :
    p ++ s.drop p.length = s := by
  rw [ List.isPrefixOf_iff_prefix] at h
  obtain ⟨t, ht⟩ := h
  subst ht
  rw [List.drop_left]

theorem extractSubparts_ok_of_forall {ps : List Part}
    (h : ∀ q ∈ ps, Part.wf q = true → ∃ s, extract_text_from_part q = Except.ok s)
    (hw : Part.wfList ps = true) : ∃ s, extractSubparts ps = Except.ok s := by
  induction ps with
  | nil => exact ⟨[], rfl⟩
  | cons q ps ihl =>
    rw [Part.wfList, Bool.and_eq_true] at hw
    obtain ⟨t, ht⟩ := h q (by simp) hw.1
    obtain ⟨r, hr⟩ := ihl (fun x hx hwx => h x (by simp [hx]) hwx) hw.2
    exact ⟨t ++ r, by rw [extractSubparts]; simp only [ht, hr]; rfl⟩

theorem extract_ok_of_wf :
    ∀ (n : Nat) (p : Part), sizeOf p ≤ n → Part.wf p = true →
      ∃ s, extract_text_from_part p = Except.ok s := by
  intro n
  induction n with
  | zero =>
    intro p hp _
    cases p <;> simp at hp
  | succ n ih =>
    intro p hp hw
    cases p with
    | leaf ct cd pl =>
      rw [extract_text_from_part]
      by_cases ha : pyContains (pyStr cd) "attachment".toList = true
      · exact ⟨[], by rw [if_pos ha]⟩
      · rw [if_neg ha]
        by_cases h1 : ct = "text/plain".toList
        · exact ⟨utf8DecodeIgnore pl, by rw [if_pos h1]⟩
        · rw [if_neg h1]
          by_cases h2 : ct = "text/html".toList
          · exact ⟨utf8DecodeIgnore pl, by rw [if_pos h2]⟩
          · exact ⟨[], by rw [if_neg h2]⟩
    | multi ct cd ps =>
      rw [Part.wf] at hw
      simp only [Bool.and_eq_true, Bool.not_eq_true', Bool.or_eq_false_iff,
        decide_eq_false_iff_not] at hw
      obtain ⟨⟨h1, h2⟩, hlist⟩ := hw
      rw [extract_text_from_part]
      by_cases ha : pyContains (pyStr cd) "attachment".toList = true
      · exact ⟨[], by rw [if_pos ha]⟩
      · rw [if_neg ha, if_neg h1, if_neg h2]
        apply extractSubparts_ok_of_forall _ hlist
        intro q hq hwq
        apply ih q _ hwq
        have hq1 : sizeOf q < sizeOf ps := List.sizeOf_lt_of_mem hq
        have hq2 : sizeOf (Part.multi ct cd ps) = 1 + sizeOf ct + sizeOf cd + sizeOf ps := by
          simp
        omega



/-- C1 counterexample: a single per-message fetch failure is NOT caught —
the whole run aborts with the error, and the second UID is never processed
(its progress line is never printed), contradicting the claimed
skip-and-continue behavior. -/
theorem claim_C1_counterexample :
    (main sessC1 [] false).result = Except.error "fetch failed".toList ∧
    processing_line "2".toList ∉ (main sessC1 [] false).logs := by
  constructor
  · decide
  · decide

/-- C1 (amended): a per-message failure such as a raising fetch is not
caught: the loop stops at the failing UID, the error propagates as the result
of the whole run, no store command is issued, and the remaining UIDs are
never processed (no tally of skipped messages exists). -/
theorem claim_C1 (sess : Session) (labels : List Str) (pfx : Str) (dry_run : Bool)
    (uid : Str) (rest : List Str) (e : Str)
    (hf : sess.fetch uid = Except.error e) :
    process_uids sess labels pfx dry_run (uid :: rest) =
      { cmds := [], logs := [processing_line uid], result := Except.error e } := by
  rw [process_uids]
  have h1 : process_one sess labels pfx dry_run uid =
      { cmds := [], logs := [processing_line uid], result := Except.error e } := by
    rw [process_one]
    simp only [hf]
  simp only [h1]

/-- C1 witness: the amended behavior on the counterexample session. -/
theorem claim_C1_witness :
    process_uids sessC1 ["work".toList, "other".toList] [] false
        ["1".toList, "2".toList] =
      { cmds := [], logs := [processing_line "1".toList],
        result := Except.error "fetch failed".toList } :=
  claim_C1 sessC1 ["work".toList, "other".toList] [] false
    "1".toList ["2".toList] "fetch failed".toList rfl





/-- C2: in the copy-then-delete strategy, a failing copy aborts with only the
select and copy on the wire (no STORE, no EXPUNGE), while a succeeding copy is
followed by exactly the deletion mark and the expunge. -/
theorem claim_C2 (copy_result : Str → Str → Str) (uid source_folder destination_folder : Str) :
    (copy_result uid (quote_dest destination_folder) ≠ "OK".toList →
      move_email copy_result uid source_folder destination_folder false =
        { cmds := [MailCmd.select source_folder,
                   MailCmd.copy uid (quote_dest destination_folder)],
          logs := [],
          result := Except.error (copy_failed_msg uid (quote_dest destination_folder)) } ∧
      (∀ f d, MailCmd.store uid f d ∉
        (move_email copy_result uid source_folder destination_folder false).cmds) ∧
      MailCmd.expunge ∉ (move_email copy_result uid source_folder destination_folder false).cmds) ∧
    (copy_result uid (quote_dest destination_folder) = "OK".toList →
      move_email copy_result uid source_folder destination_folder false =
        { cmds := [MailCmd.select source_folder,
                   MailCmd.copy uid (quote_dest destination_folder),
                   MailCmd.store uid "+FLAGS".toList "\\Deleted".toList, MailCmd.expunge],
          logs := [], result := Except.ok () }) := by
  constructor
  · intro h
    simp only [ne_eq] at h
    simp at h
    refine ⟨?_, ?_, ?_⟩ <;> simp [move_email, h]
  · intro h
    simp at h
    simp [move_email, h]

/-- C2 witness: a concrete failing copy. -/
theorem claim_C2_witness :
    move_email (fun _ _ => "NO".toList) "7".toList "INBOX".toList "work stuff".toList false =
      { cmds := [MailCmd.select "INBOX".toList,
                 MailCmd.copy "7".toList (quote_dest "work stuff".toList)],
        logs := [],
        result := Except.error (copy_failed_msg "7".toList (quote_dest "work stuff".toList)) } ∧
    (∀ f d, MailCmd.store "7".toList f d ∉
      (move_email (fun _ _ => "NO".toList) "7".toList "INBOX".toList "work stuff".toList false).cmds) ∧
    MailCmd.expunge ∉
      (move_email (fun _ _ => "NO".toList) "7".toList "INBOX".toList "work stuff".toList false).cmds :=
  (claim_C2 (fun _ _ => "NO".toList) "7".toList "INBOX".toList "work stuff".toList).1 (by decide)



/-- C3 counterexample: on a non-multipart message the Driver hands the
classifier the subject (Hello), even though the full recursive extraction is
non-empty (World) — the spec's extraction-first, subject-second order does
not match the code. -/
theorem claim_C3_counterexample :
    compute_content msgC3 = Except.ok (PyVal.str "Hello".toList) ∧
    spec_content_order msgC3 = Except.ok (PyVal.str "World".toList) ∧
    ("Hello".toList : Str) ≠ "World".toList := by
  refine ⟨by decide, by decide, by decide⟩

/-- C3 (amended): the content starts as the subject line; only for a
multipart message is it replaced by the full recursive extraction; if the
resulting value equals the empty string, the top-level payload is decoded
directly — which on a multipart message raises (`get_payload(decode=True)`
is `None`). -/
theorem claim_C3 (msg : Msg) :
    (∀ s, msg.body.is_multipart = false → msg.subject = some s → s ≠ [] →
      compute_content msg = Except.ok (PyVal.str s)) ∧
    (∀ t, msg.body.is_multipart = true → extract_text_from_part msg.body = Except.ok t →
      t ≠ [] → compute_content msg = Except.ok (PyVal.str t)) ∧
    (msg.body.is_multipart = true → extract_text_from_part msg.body = Except.ok [] →
      compute_content msg = Except.error "AttributeError".toList) := by
  refine ⟨?_, ?_, ?_⟩
  · intro s hm hs hne
    rw [compute_content]
    simp [hm, hs, hne]
  · intro t hm he hne
    rw [compute_content]
    simp [hm, he, hne, Except.map]
  · intro hm he
    rw [compute_content]
    simp only [hm, he]
    cases hb : msg.body with
    | leaf ct cd pl => rw [hb] at hm; simp [Part.is_multipart] at hm
    | multi ct cd ps => simp [hb, Part.get_payload_decoded, Except.map]

/-- C3 witness: the first amended clause on the counterexample message. -/
theorem claim_C3_witness :
    compute_content msgC3 = Except.ok (PyVal.str "Hello".toList) :=
  (claim_C3 msgC3).1 "Hello".toList (by decide) (by decide) (by decide)



/-- C4: when the oracle's top label is the fallback `other`, the Adapter
returns the sentinel `INBOX`, and the Driver skips the message: no store
command at all is issued for it and the iteration ends normally. -/
theorem claim_C4 (sess : Session) (labels : List Str) (pfx : Str) (dry_run : Bool)
    (uid : Str) (msg : Msg) (content : PyVal)
    (hf : sess.fetch uid = Except.ok msg)
    (hc : compute_content msg = Except.ok content)
    (ho : sess.oracle content (strip_labels labels pfx) = Except.ok "other".toList) :
    classify_email sess.oracle content labels (some pfx) = Except.ok "INBOX".toList ∧
    process_one sess labels pfx dry_run uid =
      { cmds := [],
        logs := processing_line uid :: (if dry_run then [subject_line msg.subject] else []),
        result := Except.ok () } := by
  have hcl : classify_email sess.oracle content labels (some pfx) = Except.ok "INBOX".toList := by
    rw [classify_email]
    simp only [ho]
    simp
  refine ⟨hcl, ?_⟩
  rw [process_one]
  simp only [hf, hc, hcl]
  simp



/-- C4 witness: a concrete message classified `other` is skipped with no
commands. -/
theorem claim_C4_witness :
    classify_email
        (fun _ _ => Except.ok "other".toList) (PyVal.str "hi".toList)
        ["work".toList, "other".toList] (some [])
      = Except.ok "INBOX".toList ∧
    process_one
        (Session.mk ["() \".\" \"work\"".toList] "OK".toList ["1".toList]
          (fun _ => Except.ok (Msg.mk (some "hi".toList)
            (Part.leaf "text/plain".toList Option.none [104, 105])))
          (fun _ _ => "OK".toList)
          (fun _ _ => Except.ok "other".toList))
        ["work".toList, "other".toList] [] false "1".toList =
      { cmds := [],
        logs := processing_line "1".toList ::
          (if false then [subject_line (some "hi".toList)] else []),
        result := Except.ok () } :=
  claim_C4
    (Session.mk ["() \".\" \"work\"".toList] "OK".toList ["1".toList]
      (fun _ => Except.ok (Msg.mk (some "hi".toList)
        (Part.leaf "text/plain".toList Option.none [104, 105])))
      (fun _ _ => "OK".toList)
      (fun _ _ => Except.ok "other".toList))
    ["work".toList, "other".toList] [] false "1".toList
    (Msg.mk (some "hi".toList) (Part.leaf "text/plain".toList Option.none [104, 105]))
    (PyVal.str "hi".toList)
    rfl (by decide) (by decide)

/-- C5 counterexample: a perfectly ordinary listing containing a mailbox
literally named `other` survives every filter, so the LabelSet built at
app.py line 141 contains the fallback label twice. -/
theorem claim_C5_counterexample :
    (get_mailboxes ["() \".\" \"other\"".toList] []).map
      (fun mbs => (mbs ++ ["other".toList]).count "other".toList) = Except.ok 2 := by
  decide

/-- C5 (amended): Discovery appends exactly one `other` at the end; whenever
the discovered mailbox names are pairwise distinct and none of them is itself
`other`, the LabelSet contains exactly one `other` entry, has no duplicates,
and every non-fallback label is itself the mailbox name it maps to. -/
theorem claim_C5 (mailbox_list : List Str) (pfx : Str) (mbs : List Str)
    (h : get_mailboxes mailbox_list pfx = Except.ok mbs)
    (hnd : mbs.Nodup) (hno : "other".toList ∉ mbs) :
    (mbs ++ ["other".toList]).count "other".toList = 1 ∧
    (mbs ++ ["other".toList]).Nodup ∧
    (∀ l ∈ mbs ++ ["other".toList], l ≠ "other".toList → l ∈ mbs) := by
  refine ⟨?_, ?_, ?_⟩
  · rw [List.count_append, List.count_eq_zero.mpr hno]
    simp
  · rw [List.nodup_append]
    refine ⟨hnd, by simp, ?_⟩
    intro a ha hb
    simp at hb
    subst hb
    exact hno ha
  · intro l hl hne
    rcases List.mem_append.mp hl with h1 | h1
    · exact h1
    · simp at h1
      exact absurd h1 hne

/-- C5 witness: a duplicate-free listing yields a LabelSet with one `other`
and no duplicates. -/
theorem claim_C5_witness :
    (["work".toList, "bills".toList] ++ ["other".toList]).count "other".toList = 1 ∧
    (["work".toList, "bills".toList] ++ ["other".toList]).Nodup ∧
    (∀ l ∈ ["work".toList, "bills".toList] ++ ["other".toList], l ≠ "other".toList →
      l ∈ ["work".toList, "bills".toList]) :=
  claim_C5 ["() \".\" \"work\"".toList, "() \".\" \"bills\"".toList] []
    ["work".toList, "bills".toList] (by decide) (by decide) (by decide)



/-- C6: on any wellformed MIME tree — wellformed meaning only that multipart
containers do not declare a leaf text content type, which the email parser
guarantees — extraction always returns a string: unknown content types,
attachments and arbitrary (malformed) payload bytes all yield `Except.ok`. -/
theorem claim_C6 (p : Part) (h : Part.wf p = true) :
    ∃ s, extract_text_from_part p = Except.ok s :=
  extract_ok_of_wf (sizeOf p) p le_rfl h

/-- C6 witness: a part with an unknown content type and malformed bytes, and
nested multipart content with a malformed text payload, both extract to a
string. -/
theorem claim_C6_witness :
    Part.wf (Part.multi "multipart/mixed".toList Option.none
      [Part.leaf "application/octet-stream".toList (some "inline".toList) [255, 254, 0],
       Part.leaf "text/plain".toList Option.none [72, 255, 105]]) = true ∧
    ∃ s, extract_text_from_part (Part.multi "multipart/mixed".toList Option.none
      [Part.leaf "application/octet-stream".toList (some "inline".toList) [255, 254, 0],
       Part.leaf "text/plain".toList Option.none [72, 255, 105]]) = Except.ok s :=
  ⟨by decide,
   claim_C6 (Part.multi "multipart/mixed".toList Option.none
      [Part.leaf "application/octet-stream".toList (some "inline".toList) [255, 254, 0],
       Part.leaf "text/plain".toList Option.none [72, 255, 105]]) (by decide)⟩

/-- C7: with a non-empty prefix, when the oracle's top label is the stripped
form of a LabelSet member (and not the fallback), the Adapter re-applies the
prefix and returns the original mailbox name. -/
theorem claim_C7 (oracle : PyVal → List Str → Except Str Str) (content : PyVal)
    (labels : List Str) (pfx name : Str)
    (hpne : pfx ≠ [])
    (hmem : name ∈ labels)
    (hpre : pfx.isPrefixOf name = true)
    (hother : name.drop pfx.length ≠ "other".toList)
    (horacle : oracle content (strip_labels labels pfx) = Except.ok (name.drop pfx.length)) :
    classify_email oracle content labels (some pfx) = Except.ok name := by
  have hrt : pfx ++ name.drop pfx.length = name := append_drop_of_isPrefixOf hpre
  rw [classify_email]
  simp only [horacle]
  rw [if_neg hother, hrt, if_pos hmem]

/-- C7 witness: the spec's scenario — LabelSet INBOX.receipts/INBOX.newsletters/other,
prefix INBOX., oracle top label receipts, Adapter returns INBOX.receipts. -/
theorem claim_C7_witness :
    classify_email (fun _ _ => Except.ok "receipts".toList) (PyVal.str "some email".toList)
      ["INBOX.receipts".toList, "INBOX.newsletters".toList, "other".toList]
      (some "INBOX.".toList) = Except.ok "INBOX.receipts".toList :=
  claim_C7 (fun _ _ => Except.ok "receipts".toList) (PyVal.str "some email".toList)
    ["INBOX.receipts".toList, "INBOX.newsletters".toList, "other".toList]
    "INBOX.".toList "INBOX.receipts".toList
    (by decide) (by decide) (by decide) (by decide) (by decide)



/-- C8: with dry-run set, a message whose decision is not the inbox causes no
store command at all; the decision line naming UID, source and destination is
printed. -/
theorem claim_C8 (sess : Session) (labels : List Str) (pfx : Str)
    (uid : Str) (msg : Msg) (content : PyVal) (target_folder : Str)
    (hf : sess.fetch uid = Except.ok msg)
    (hc : compute_content msg = Except.ok content)
    (hcl : classify_email sess.oracle content labels (some pfx) = Except.ok target_folder)
    (ht : target_folder ≠ "INBOX".toList) :
    process_one sess labels pfx true uid =
      { cmds := [],
        logs := [processing_line uid, subject_line msg.subject, moving_line target_folder,
                 dry_run_line uid "INBOX".toList target_folder],
        result := Except.ok () } := by
  rw [process_one]
  simp only [hf, hc, hcl]
  rw [if_neg ht]
  simp [move_email]

/-- C8 witness: a concrete dry run issues no commands and reports the
decision. -/
theorem claim_C8_witness :
    process_one
        (Session.mk ["() \".\" \"work\"".toList] "OK".toList ["1".toList]
          (fun _ => Except.ok (Msg.mk (some "hi".toList)
            (Part.leaf "text/plain".toList Option.none [104, 105])))
          (fun _ _ => "OK".toList)
          (fun _ _ => Except.ok "work".toList))
        ["work".toList, "other".toList] [] true "1".toList =
      { cmds := [],
        logs := [processing_line "1".toList, subject_line (some "hi".toList),
                 moving_line "work".toList,
                 dry_run_line "1".toList "INBOX".toList "work".toList],
        result := Except.ok () } :=
  claim_C8
    (Session.mk ["() \".\" \"work\"".toList] "OK".toList ["1".toList]
      (fun _ => Except.ok (Msg.mk (some "hi".toList)
        (Part.leaf "text/plain".toList Option.none [104, 105])))
      (fun _ _ => "OK".toList)
      (fun _ _ => Except.ok "work".toList))
    ["work".toList, "other".toList] [] "1".toList
    (Msg.mk (some "hi".toList) (Part.leaf "text/plain".toList Option.none [104, 105]))
    (PyVal.str "hi".toList) "work".toList
    rfl (by decide) (by decide) (by decide)



/-- C9 counterexample: on a listing entry whose mailbox name is unquoted,
`parse_mailbox_name` returns the quoted delimiter (`.`), not the last token
(`INBOX`) that the spec's parse rule names. -/
theorem claim_C9_counterexample :
    parse_mailbox_name "(\\HasNoChildren) \".\" INBOX".toList = some ".".toList ∧
    spec_last_token "(\\HasNoChildren) \".\" INBOX".toList = some "INBOX".toList ∧
    (".".toList : Str) ≠ "INBOX".toList := by
  refine ⟨by decide, by decide, by decide⟩

/-- C9 (amended): Discovery takes the text between the last two double
quotes of an entry (so an entry with an unquoted trailing mailbox name
yields the quoted delimiter instead of that name); an entry that cannot be
parsed this way is skipped without aborting discovery. -/
theorem claim_C9 (entry : Str) (rest : List Str) (pfx : Str)
    (h : parse_mailbox_name entry = Option.none) :
    get_mailboxes (entry :: rest) pfx = get_mailboxes rest pfx := by
  rw [get_mailboxes, get_mailboxes]
  simp only [List.filterMap_cons, h]

/-- C9 witness: a quoteless entry is skipped and discovery continues with
the remaining entries. -/
theorem claim_C9_witness :
    get_mailboxes ["NIL".toList, "() \".\" \"work\"".toList] [] =
      get_mailboxes ["() \".\" \"work\"".toList] [] :=
  claim_C9 "NIL".toList ["() \".\" \"work\"".toList] [] (by decide)

/-- C10: for a non-multipart message with no Subject header, the content
handed to the classifier is Python `None` — not a string — the empty-string
test does not fire the raw-payload fallback, and a classifier that cannot
handle `None` aborts the run with its error. -/
theorem claim_C10 (sess : Session) (labels : List Str) (pfx : Str) (dry_run : Bool)
    (uid : Str) (msg : Msg) (e : Str)
    (hf : sess.fetch uid = Except.ok msg)
    (hm : msg.body.is_multipart = false)
    (hs : msg.subject = Option.none)
    (ho : sess.oracle PyVal.none (strip_labels labels pfx) = Except.error e) :
    compute_content msg = Except.ok PyVal.none ∧
    (∀ s, PyVal.none ≠ PyVal.str s) ∧
    (process_one sess labels pfx dry_run uid).result = Except.error e := by
  have hc : compute_content msg = Except.ok PyVal.none := by
    rw [compute_content]
    simp [hm, hs]
  have hcl : classify_email sess.oracle PyVal.none labels (some pfx) = Except.error e := by
    rw [classify_email]
    simp only [ho]
  refine ⟨hc, ?_, ?_⟩
  · intro s h
    cases h
  · rw [process_one]
    simp only [hf, hc, hcl]

/-- C10 witness: a concrete subject-less, single-part message reaches the
classifier as `None` and the run aborts on the classifier's error. -/
theorem claim_C10_witness :
    compute_content (Msg.mk Option.none (Part.leaf "text/plain".toList Option.none [104, 105]))
      = Except.ok PyVal.none ∧
    (∀ s, PyVal.none ≠ PyVal.str s) ∧
    (process_one
        (Session.mk ["() \".\" \"work\"".toList] "OK".toList ["1".toList]
          (fun _ => Except.ok (Msg.mk Option.none
            (Part.leaf "text/plain".toList Option.none [104, 105])))
          (fun _ _ => "OK".toList)
          (fun c _ => if c = PyVal.none then Except.error "TypeError".toList
                      else Except.ok "other".toList))
        ["work".toList, "other".toList] [] false "1".toList).result =
      Except.error "TypeError".toList :=
  claim_C10
    (Session.mk ["() \".\" \"work\"".toList] "OK".toList ["1".toList]
      (fun _ => Except.ok (Msg.mk Option.none
        (Part.leaf "text/plain".toList Option.none [104, 105])))
      (fun _ _ => "OK".toList)
      (fun c _ => if c = PyVal.none then Except.error "TypeError".toList
                  else Except.ok "other".toList))
    ["work".toList, "other".toList] [] false "1".toList
    (Msg.mk Option.none (Part.leaf "text/plain".toList Option.none [104, 105]))
    "TypeError".toList
    rfl (by decide) rfl (by decide)





end AiMailSorter
